import Mathlib

/-!
Verification of the `diff` dependency-injection container (C++ headers under
`include/diff/`) against its natural-language specification.  The C++ code is
shallowly embedded: machine integers become `Int` with explicit range
constraints, C++ exceptions become `Except` / explicit error options, and the
mutable containers (`std::set`, `std::map`, `std::vector`, `std::stack`)
become sorted association lists and plain lists.
-/

namespace Diff

/-! Section: Type identity (CastChecker.h / Demangler.h)

`IntegralCastChecker` is `CastChecker<bool, char, int8_t, uint8_t, wchar_t,
char16_t, char32_t, int16_t, uint16_t, int32_t, uint32_t, int64_t, uint64_t,
long long, unsigned long long>`.  Each template argument is a distinct C++
type (distinct `typeid`); on the x86-64 Linux target of the repository the
fixed-width aliases resolve to `signed char`, `unsigned char`, `short`,
`unsigned short`, `int`, `unsigned int`, `long`, `unsigned long`. -/

/-- C++ integral type tokens appearing in the `IntegralCastChecker` list.
A token stands for a distinct `std::type_info` identity. -/
inductive CType
  | cBool | cChar | cSChar | cUChar | cWChar | cChar16 | cChar32
  | cShort | cUShort | cInt | cUInt | cLong | cULong | cLongLong | cULongLong
deriving DecidableEq, Repr

open CType

/-- Embedding of `sizeof` in bytes on the x86-64 Linux target. -/
def sizeofC : CType → Nat
  | cBool => 1 | cChar => 1 | cSChar => 1 | cUChar => 1
  | cWChar => 4 | cChar16 => 2 | cChar32 => 4
  | cShort => 2 | cUShort => 2 | cInt => 4 | cUInt => 4
  | cLong => 8 | cULong => 8 | cLongLong => 8 | cULongLong => 8

/-- Embedding of `std::is_unsigned` on the x86-64 Linux target (`char` and `wchar_t` are
signed there; `bool`, `char16_t`, `char32_t` are unsigned). -/
def isUnsignedC : CType → Bool
  | cBool => true | cChar => false | cSChar => false | cUChar => true
  | cWChar => false | cChar16 => true | cChar32 => true
  | cShort => false | cUShort => true | cInt => false | cUInt => true
  | cLong => false | cULong => true | cLongLong => false | cULongLong => true

/-- Embedding of `std::numeric_limits<T>::min()` as a mathematical integer. -/
def cmin : CType → Int
  | cBool => 0 | cChar => -128 | cSChar => -128 | cUChar => 0
  | cWChar => -2147483648 | cChar16 => 0 | cChar32 => 0
  | cShort => -32768 | cUShort => 0
  | cInt => -2147483648 | cUInt => 0
  | cLong => -9223372036854775808 | cULong => 0
  | cLongLong => -9223372036854775808 | cULongLong => 0

/-- Embedding of `std::numeric_limits<T>::max()` as a mathematical integer. -/
def cmax : CType → Int
  | cBool => 1 | cChar => 127 | cSChar => 127 | cUChar => 255
  | cWChar => 2147483647 | cChar16 => 65535 | cChar32 => 4294967295
  | cShort => 32767 | cUShort => 65535
  | cInt => 2147483647 | cUInt => 4294967295
  | cLong => 9223372036854775807 | cULong => 18446744073709551615
  | cLongLong => 9223372036854775807 | cULongLong => 18446744073709551615

/-- A value is representable in a C++ integral type when it lies between the
type's `numeric_limits` bounds. -/
def reprC (t : CType) (v : Int) : Prop := cmin t ≤ v ∧ v ≤ cmax t

instance (t : CType) (v : Int) : Decidable (reprC t v) := by
  unfold reprC; infer_instance

/-- Embedding of `CastChecker::inRange<T /target/, U /source/>` (CastChecker.h:68-81).
Same-signedness pairs compare the value against `[min(T), max(T)]`; opposite
signedness pairs compare against `[0, max(T)]`.  The C++ comparisons go
through value-preserving promotions (the `0 <= data` conjunct short-circuits
before any signed-to-unsigned conversion), so mathematical `≤` on `Int` is
faithful for every value representable in the source type. -/
def inRangeC (target source : CType) (v : Int) : Bool :=
  if isUnsignedC target = isUnsignedC source then
    decide (cmin target ≤ v ∧ v ≤ cmax target)
  else
    decide (0 ≤ v ∧ v ≤ cmax target)

/-- The template argument pack of `IntegralCastChecker`, in declaration
order. -/
def checkerList : List CType :=
  [cBool, cChar, cSChar, cUChar, cWChar, cChar16, cChar32,
   cShort, cUShort, cInt, cUInt, cLong, cULong, cLongLong, cULongLong]

/-- Embedding of `IntegralCastChecker::check(data, typeInfo)` (CastChecker.h:45-65): fold
over the argument pack; an entry `U` matches when `typeid(U) == typeInfo`,
`sizeof(U) <= sizeof(T)` and `inRange<U>(data)` holds; the fold's base case
returns `false`.  `source` is the variable's type `T`, `v` its value, `tok`
the `std::type_info` argument. -/
def check (source : CType) (v : Int) (tok : CType) : Bool :=
  checkerList.any fun u =>
    decide (tok = u) && decide (sizeofC u ≤ sizeofC source) && inRangeC u source v

/-- Unfolding the pack fold: the only entry that can match `tok` is `tok`
itself (all tokens in the pack are distinct `typeid`s). -/
theorem check_eq (source : CType) (v : Int) (tok : CType) :
    check source v tok =
      (decide (sizeofC tok ≤ sizeofC source) && inRangeC tok source v) := by
  cases tok <;> simp [check, checkerList]

theorem cmin_of_unsigned (t : CType) (h : isUnsignedC t = true) : cmin t = 0 := by
  cases t <;> simp [isUnsignedC] at h ⊢ <;> rfl

theorem cmin_nonpos (t : CType) : cmin t ≤ 0 := by
  cases t <;> decide

/-- For a value representable in the source type, the in-range test of the
code coincides with plain membership in `[min(target), max(target)]`. -/
theorem inRange_iff (target source : CType) (v : Int) (hrep : reprC source v) :
    inRangeC target source v = true ↔ (cmin target ≤ v ∧ v ≤ cmax target) := by
  unfold inRangeC
  by_cases hs : isUnsignedC target = isUnsignedC source
  · simp [hs]
  · simp only [hs, if_false, decide_eq_true_iff]
    cases hu : isUnsignedC target with
    | true =>
      have h0 : cmin target = 0 := cmin_of_unsigned target hu
      constructor
      · rintro ⟨h1, h2⟩; exact ⟨by omega, h2⟩
      · rintro ⟨h1, h2⟩; exact ⟨by omega, h2⟩
    | false =>
      have hsrc : isUnsignedC source = true := by
        cases h : isUnsignedC source
        · rw [hu, h] at hs; exact absurd rfl hs
        · rfl
      have h0 : cmin source = 0 := cmin_of_unsigned source hsrc
      have hv0 : 0 ≤ v := by have := hrep.1; omega
      have hneg : cmin target ≤ 0 := cmin_nonpos target
      constructor
      · rintro ⟨h1, h2⟩; exact ⟨by omega, h2⟩
      · rintro ⟨h1, h2⟩; exact ⟨hv0, h2⟩

/-- Full characterisation of `check` for representable source values. -/
theorem check_iff (source : CType) (v : Int) (tok : CType) (hrep : reprC source v) :
    check source v tok = true ↔
      (sizeofC tok ≤ sizeofC source ∧ cmin tok ≤ v ∧ v ≤ cmax tok) := by
  rw [check_eq]
  rw [Bool.and_eq_true, decide_eq_true_iff, inRange_iff tok source v hrep]

/-! Section: The repository's 64-row cast-check test matrix (TestCastChecker.cpp)

Each row `test<T, U>(a, b, c, d, e)` checks `check(v, typeid(U))` at
`v ∈ { min(T), (T)(-1), 0, 1, max(T) }`. -/

/-- The eight sized integer widths, as their underlying x86-64 Linux types:
`int8_t, uint8_t, int16_t, uint16_t, int32_t, uint32_t, int64_t, uint64_t`. -/
def sizedWidths : List CType :=
  [cSChar, cUChar, cShort, cUShort, cInt, cUInt, cLong, cULong]

/-- Embedding of `static_cast<T>(-1)`: `-1` for signed `T`, `max(T)` for unsigned `T`. -/
def castNegOne (t : CType) : Int := if isUnsignedC t then cmax t else -1

/-- One row of the test table: source type, target type, expected results at
the five representative values. -/
structure MatrixRow where
  src : CType
  tgt : CType
  a : Bool
  b : Bool
  c : Bool
  d : Bool
  e : Bool
deriving DecidableEq, Repr

/-- The 64 rows of TestCastChecker.cpp, in file order. -/
def testMatrix : List MatrixRow :=
  [⟨cSChar, cSChar, true, true, true, true, true⟩,
   ⟨cSChar, cShort, false, false, false, false, false⟩,
   ⟨cSChar, cInt, false, false, false, false, false⟩,
   ⟨cSChar, cLong, false, false, false, false, false⟩,
   ⟨cShort, cSChar, false, true, true, true, false⟩,
   ⟨cShort, cShort, true, true, true, true, true⟩,
   ⟨cShort, cInt, false, false, false, false, false⟩,
   ⟨cShort, cLong, false, false, false, false, false⟩,
   ⟨cInt, cSChar, false, true, true, true, false⟩,
   ⟨cInt, cShort, false, true, true, true, false⟩,
   ⟨cInt, cInt, true, true, true, true, true⟩,
   ⟨cInt, cLong, false, false, false, false, false⟩,
   ⟨cLong, cSChar, false, true, true, true, false⟩,
   ⟨cLong, cShort, false, true, true, true, false⟩,
   ⟨cLong, cInt, false, true, true, true, false⟩,
   ⟨cLong, cLong, true, true, true, true, true⟩,
   ⟨cSChar, cUChar, false, false, true, true, true⟩,
   ⟨cSChar, cUShort, false, false, false, false, false⟩,
   ⟨cSChar, cUInt, false, false, false, false, false⟩,
   ⟨cSChar, cULong, false, false, false, false, false⟩,
   ⟨cShort, cUChar, false, false, true, true, false⟩,
   ⟨cShort, cUShort, false, false, true, true, true⟩,
   ⟨cShort, cUInt, false, false, false, false, false⟩,
   ⟨cShort, cULong, false, false, false, false, false⟩,
   ⟨cInt, cUChar, false, false, true, true, false⟩,
   ⟨cInt, cUShort, false, false, true, true, false⟩,
   ⟨cInt, cUInt, false, false, true, true, true⟩,
   ⟨cInt, cULong, false, false, false, false, false⟩,
   ⟨cLong, cUChar, false, false, true, true, false⟩,
   ⟨cLong, cUShort, false, false, true, true, false⟩,
   ⟨cLong, cUInt, false, false, true, true, false⟩,
   ⟨cLong, cULong, false, false, true, true, true⟩,
   ⟨cUChar, cSChar, true, false, true, true, false⟩,
   ⟨cUChar, cShort, false, false, false, false, false⟩,
   ⟨cUChar, cInt, false, false, false, false, false⟩,
   ⟨cUChar, cLong, false, false, false, false, false⟩,
   ⟨cUShort, cSChar, true, false, true, true, false⟩,
   ⟨cUShort, cShort, true, false, true, true, false⟩,
   ⟨cUShort, cInt, false, false, false, false, false⟩,
   ⟨cUShort, cLong, false, false, false, false, false⟩,
   ⟨cUInt, cSChar, true, false, true, true, false⟩,
   ⟨cUInt, cShort, true, false, true, true, false⟩,
   ⟨cUInt, cInt, true, false, true, true, false⟩,
   ⟨cUInt, cLong, false, false, false, false, false⟩,
   ⟨cULong, cSChar, true, false, true, true, false⟩,
   ⟨cULong, cShort, true, false, true, true, false⟩,
   ⟨cULong, cInt, true, false, true, true, false⟩,
   ⟨cULong, cLong, true, false, true, true, false⟩,
   ⟨cUChar, cUChar, true, true, true, true, true⟩,
   ⟨cUChar, cUShort, false, false, false, false, false⟩,
   ⟨cUChar, cUInt, false, false, false, false, false⟩,
   ⟨cUChar, cULong, false, false, false, false, false⟩,
   ⟨cUShort, cUChar, true, false, true, true, false⟩,
   ⟨cUShort, cUShort, true, true, true, true, true⟩,
   ⟨cUShort, cUInt, false, false, false, false, false⟩,
   ⟨cUShort, cULong, false, false, false, false, false⟩,
   ⟨cUInt, cUChar, true, false, true, true, false⟩,
   ⟨cUInt, cUShort, true, false, true, true, false⟩,
   ⟨cUInt, cUInt, true, true, true, true, true⟩,
   ⟨cUInt, cULong, false, false, false, false, false⟩,
   ⟨cULong, cUChar, true, false, true, true, false⟩,
   ⟨cULong, cUShort, true, false, true, true, false⟩,
   ⟨cULong, cUInt, true, false, true, true, false⟩,
   ⟨cULong, cULong, true, true, true, true, true⟩]

/-- The embedded checker reproduces a test row at all five representative
values. -/
def rowMatches (r : MatrixRow) : Bool :=
  (check r.src (cmin r.src) r.tgt == r.a) &&
  (check r.src (castNegOne r.src) r.tgt == r.b) &&
  (check r.src 0 r.tgt == r.c) &&
  (check r.src 1 r.tgt == r.d) &&
  (check r.src (cmax r.src) r.tgt == r.e)

/-- C1: for every integral value `v` of a sized-width type `T` and every
sized-width target `U`, `IntegralCastChecker::check(v, typeid(U))` is true
iff `sizeof(U) <= sizeof(T)` and `v` lies in `[min(U), max(U)]`; and the
checker matches all 64 rows of the repository's test table. -/
theorem castChecker_check_characterisation :
    (∀ T U v, T ∈ sizedWidths → U ∈ sizedWidths → cmin T ≤ v → v ≤ cmax T →
      (check T v U = true ↔
        (sizeofC U ≤ sizeofC T ∧ cmin U ≤ v ∧ v ≤ cmax U))) ∧
    testMatrix.all rowMatches = true := by
  refine ⟨fun T U v _ _ h1 h2 => check_iff T v U ⟨h1, h2⟩, by decide⟩

/-- Witness for C1: the characterisation applied at `T = int64_t`,
`U = uint8_t`, `v = 300` (which fails the range test). -/
theorem castChecker_check_characterisation_witness :
    check cLong 300 cUChar = true ↔
      (sizeofC cUChar ≤ sizeofC cLong ∧ cmin cUChar ≤ 300 ∧ (300 : Int) ≤ cmax cUChar) :=
  castChecker_check_characterisation.1 cLong cUChar 300
    (by decide) (by decide) (by decide) (by decide)

/-! Section: Exceptions (Exception.h)

Each exception kind is a constructor carrying the constructor arguments of
the corresponding C++ class. -/

/-- The `diff` domain error hierarchy. -/
inductive DiffError
  | dependencyRegisterNotFound (ty id : String)
  | dependencyDuplicated (ty id : String)
  | dependencyNotFound (ty id : String)
  | factoryNotFound (ty : String)
  | configEntryKeyDuplicated (key : String)
  | configEntryCastError (key val src tgt : String)
  | componentIdDuplicated (ty id : String)
  | topologyLoaderException (msg : String)
deriving DecidableEq, Repr

/-! Section: Config (Config.h)

A `ConfigEntry` is either the `std::string` specialisation or the integral
`ConfigEntry<T>`.  `value<T>()` dereferences the `const void*` returned by
the virtual `value(typeid(T))`, which for the string specialisation demands
`typeid(std::string)` and for integral entries consults
`IntegralCastChecker::check`; the successful integral read is a byte
reinterpretation `*static_cast<const T*>(&value_)` of the stored value. -/

/-- Embedding of `Demangler::of<T>()` for the checker's integral types (x86-64 gcc
demangled names). -/
def typeNameC : CType → String
  | cBool => "bool" | cChar => "char" | cSChar => "signed char"
  | cUChar => "unsigned char" | cWChar => "wchar_t"
  | cChar16 => "char16_t" | cChar32 => "char32_t"
  | cShort => "short" | cUShort => "unsigned short"
  | cInt => "int" | cUInt => "unsigned int"
  | cLong => "long" | cULong => "unsigned long"
  | cLongLong => "long long" | cULongLong => "unsigned long long"

/-- Embedding of `Demangler::of<std::string>()` on the x86-64 gcc target. -/
def stringTypeName : String :=
  "std::__cxx11::basic_string<char, std::char_traits<char>, std::allocator<char> >"

/-- A `ConfigEntry`: the `std::string` specialisation or the integral
specialisation `ConfigEntry<T>` with its stored type and value. -/
inductive CEntry
  | str (key : String) (val : String)
  | intg (key : String) (ty : CType) (val : Int)
deriving DecidableEq, Repr

/-- Embedding of `ConfigEntry::key()`. -/
def CEntry.key : CEntry → String
  | .str k _ => k
  | .intg k _ _ => k

/-- Embedding of `ConfigEntry<T>::toString()` for integral `T`: `"true"/"false"` for
`bool`, `std::to_string` (canonical decimal) otherwise. -/
def intToStr (ty : CType) (v : Int) : String :=
  if ty = cBool then (if v = 0 then "false" else "true") else toString v

/-- Embedding of `ConfigEntry::toString()`. -/
def CEntry.toStr : CEntry → String
  | .str _ s => s
  | .intg _ ty v => intToStr ty v

/-- The demangled name of an entry's stored type (`ConfigEntry::type()`). -/
def CEntry.typeName : CEntry → String
  | .str _ _ => stringTypeName
  | .intg _ ty _ => typeNameC ty

/-- The type requested from `ConfigEntry<void>::value<T>()`:
`std::string` or one of the checker's integral types. -/
inductive ReqTy
  | rstr
  | rint (t : CType)
deriving DecidableEq, Repr

/-- Demangled name of a requested type. -/
def ReqTy.name : ReqTy → String
  | .rstr => stringTypeName
  | .rint t => typeNameC t

/-- Result of `value<T>()`. -/
inductive CVal
  | vs (s : String)
  | vi (v : Int)
deriving DecidableEq, Repr

/-- Byte reinterpretation `*static_cast<const T*>(&value_)` on the
little-endian target: keep the low `sizeof(T)` bytes of the two's-complement
representation and decode them at `T`'s signedness. -/
def reinterpret (target : CType) (v : Int) : Int :=
  let w : Nat := 8 * sizeofC target
  let m : Int := v % ((2 : Int) ^ w)
  if isUnsignedC target then m
  else if m < (2 : Int) ^ (w - 1) then m else m - (2 : Int) ^ w

/-- Embedding of `ConfigEntry<void>::value<T>()` (Config.h:55-60 dispatching to
Config.h:121-127 for the string specialisation and Config.h:172-178 for the
integral one). -/
def entryValue (e : CEntry) (t : ReqTy) : Except DiffError CVal :=
  match e, t with
  | .str _ s, .rstr => .ok (.vs s)
  | .str k s, .rint u =>
      .error (.configEntryCastError k s stringTypeName (typeNameC u))
  | .intg k ty v, .rstr =>
      .error (.configEntryCastError k (intToStr ty v) (typeNameC ty) stringTypeName)
  | .intg k ty v, .rint u =>
      if check ty v u then .ok (.vi (reinterpret u v))
      else .error (.configEntryCastError k (intToStr ty v) (typeNameC ty) (typeNameC u))

/-- Under a passed cast check, byte reinterpretation preserves the stored
value: the range test guarantees the value fits the target width and
signedness. -/
theorem reinterpret_eq (target : CType) (v : Int)
    (h1 : cmin target ≤ v) (h2 : v ≤ cmax target) :
    reinterpret target v = v := by
  cases target <;>
    simp only [reinterpret, sizeofC, isUnsignedC, cmin, cmax,
      if_true, if_false, Bool.true_eq_false, Bool.false_eq_true] at * <;>
    norm_num <;> (try split) <;> omega

/-- C2: `entry.value<T>()` returns the stored value exactly when the stored
and requested types are both `std::string`, or both integral with the cast
checker accepting the stored value for `T`; every other combination throws
`ConfigEntryCastError(key, toString(), storedTypeName, requestedTypeName)`. -/
theorem configEntry_value_cases :
    (∀ k s, entryValue (.str k s) .rstr = .ok (.vs s)) ∧
    (∀ k s u, entryValue (.str k s) (.rint u) =
      .error (.configEntryCastError k s stringTypeName (typeNameC u))) ∧
    (∀ k ty v, entryValue (.intg k ty v) .rstr =
      .error (.configEntryCastError k (intToStr ty v) (typeNameC ty) stringTypeName)) ∧
    (∀ k ty v u, reprC ty v →
      (check ty v u = true → entryValue (.intg k ty v) (.rint u) = .ok (.vi v)) ∧
      (check ty v u = false → entryValue (.intg k ty v) (.rint u) =
        .error (.configEntryCastError k (intToStr ty v) (typeNameC ty) (typeNameC u)))) := by
  refine ⟨fun k s => rfl, fun k s u => rfl, fun k ty v => rfl, fun k ty v u hrep => ⟨?_, ?_⟩⟩
  · intro hc
    have hb := (check_iff ty v u hrep).mp hc
    simp [entryValue, hc, reinterpret_eq u v hb.2.1 hb.2.2]
  · intro hc
    simp [entryValue, hc]

/-- Witness for C2: a `uint16_t{1000}` entry read as `uint8_t` (rejected) and
as `uint16_t` (accepted). -/
theorem configEntry_value_cases_witness :
    entryValue (.intg "k" cUShort 1000) (.rint cUChar) =
      .error (.configEntryCastError "k" "1000" "unsigned short" "unsigned char") ∧
    entryValue (.intg "k" cUShort 1000) (.rint cUShort) = .ok (.vi 1000) := by
  refine ⟨?_, ?_⟩
  · have h := (configEntry_value_cases.2.2.2 "k" cUShort 1000 cUChar (by decide)).2 (by decide)
    simpa [intToStr, typeNameC] using h
  · exact (configEntry_value_cases.2.2.2 "k" cUShort 1000 cUShort (by decide)).1 (by decide)

/-- C3: round-trip and narrowing law.  A value stored at integral type `T`
reads back at `T` as itself; reading at a strictly narrower integral type
succeeds (with the original value) iff the value is representable there, and
otherwise throws the cast error; reading at a strictly wider integral type
always throws. -/
theorem config_roundTrip_narrowing (T U : CType) (v : Int) (k : String)
    (h1 : cmin T ≤ v) (h2 : v ≤ cmax T) :
    entryValue (.intg k T v) (.rint T) = .ok (.vi v) ∧
    (sizeofC U < sizeofC T →
      ((cmin U ≤ v ∧ v ≤ cmax U) →
        entryValue (.intg k T v) (.rint U) = .ok (.vi v)) ∧
      (¬(cmin U ≤ v ∧ v ≤ cmax U) →
        entryValue (.intg k T v) (.rint U) =
          .error (.configEntryCastError k (intToStr T v) (typeNameC T) (typeNameC U)))) ∧
    (sizeofC T < sizeofC U →
      entryValue (.intg k T v) (.rint U) =
        .error (.configEntryCastError k (intToStr T v) (typeNameC T) (typeNameC U))) := by
  have hrep : reprC T v := ⟨h1, h2⟩
  refine ⟨?_, fun hlt => ⟨fun hb => ?_, fun hb => ?_⟩, fun hgt => ?_⟩
  · have hc : check T v T = true :=
      (check_iff T v T hrep).mpr ⟨le_refl _, h1, h2⟩
    simp [entryValue, hc, reinterpret_eq T v h1 h2]
  · have hc : check T v U = true :=
      (check_iff T v U hrep).mpr ⟨Nat.le_of_lt hlt, hb.1, hb.2⟩
    simp [entryValue, hc, reinterpret_eq U v hb.1 hb.2]
  · have hc : check T v U = false := by
      cases h : check T v U
      · rfl
      · exact absurd ((check_iff T v U hrep).mp h).2 hb
    simp [entryValue, hc]
  · have hc : check T v U = false := by
      cases h : check T v U
      · rfl
      · exact absurd ((check_iff T v U hrep).mp h).1 (by omega)
    simp [entryValue, hc]

/-- Witness for C3: `int32_t{-1}` reads back at `int32_t` as `-1`, succeeds at
narrower `int8_t`, and fails at wider `int64_t`. -/
theorem config_roundTrip_narrowing_witness :
    entryValue (.intg "k" cInt (-1)) (.rint cInt) = .ok (.vi (-1)) ∧
    entryValue (.intg "k" cInt (-1)) (.rint cSChar) = .ok (.vi (-1)) ∧
    entryValue (.intg "k" cInt (-1)) (.rint cLong) =
      .error (.configEntryCastError "k" (intToStr cInt (-1)) (typeNameC cInt) (typeNameC cLong)) := by
  have h := config_roundTrip_narrowing cInt cSChar (-1) "k" (by decide) (by decide)
  have h2 := config_roundTrip_narrowing cInt cLong (-1) "k" (by decide) (by decide)
  exact ⟨h.1, (h.2.1 (by decide)).1 (by decide), h2.2.2 (by decide)⟩

/-! Section: DependencyRegistry (DependencyRegistry.h)

A `DependencyRegister<T>` is a `std::map<id, T&>`, modelled as an
association list sorted by id; the registry is a `std::set` of registers
ordered by type name, modelled as an association list sorted by type name.
References to dependencies are abstracted as `Nat` tokens. -/

/-- Lexicographic comparison of character codes, one step per character. -/
def strLtAux : List Char → List Char → Bool
  | [], [] => false
  | [], _ :: _ => true
  | _ :: _, [] => false
  | a :: as, b :: bs =>
      if a.toNat < b.toNat then true
      else if b.toNat < a.toNat then false
      else strLtAux as bs

/-- Embedding of `std::string::operator<`: lexicographic comparison of the byte
sequences. -/
def strLt (a b : String) : Bool := strLtAux a.toList b.toList

/-- A single `DependencyRegister<T>`: id-sorted association list of
registered references. -/
abbrev RegEntries := List (String × Nat)

/-- Embedding of `std::map::emplace`-style sorted insertion (the caller has already
checked that the key is absent). -/
def mapInsert (l : RegEntries) (id : String) (d : Nat) : RegEntries :=
  match l with
  | [] => [(id, d)]
  | (k, x) :: rest =>
      if strLt id k then (id, d) :: (k, x) :: rest else (k, x) :: mapInsert rest id d

/-- Embedding of `DependencyRegister<T>::has` / the `count` test inside `add`. -/
def regHasId (l : RegEntries) (id : String) : Bool :=
  l.any fun p => p.1 == id

/-- The registry's `std::set` of registers: type name combined with entries. -/
abbrev RegList := List (String × RegEntries)

/-- Embedding of `DependencyRegistry` state. -/
structure DependencyRegistryM where
  regs : RegList
deriving DecidableEq, Repr

/-- Embedding of `dependencyRegisters_.find(type)` resolved to the register's entries. -/
def lookupReg : RegList → String → Option RegEntries
  | [], _ => none
  | (t, r) :: rest, ty => if t = ty then some r else lookupReg rest ty

/-- Embedding of `std::set::emplace` of a fresh register, ordered by type name. -/
def insertReg : RegList → String → RegEntries → RegList
  | [], ty, r => [(ty, r)]
  | (t, r0) :: rest, ty, r =>
      if strLt ty t then (ty, r) :: (t, r0) :: rest else (t, r0) :: insertReg rest ty r

/-- Replace the entries of an existing register (the C++ register is mutated
in place). -/
def updateReg : RegList → String → RegEntries → RegList
  | [], _, _ => []
  | (t, r0) :: rest, ty, r =>
      if t = ty then (t, r) :: rest else (t, r0) :: updateReg rest ty r

/-- Embedding of `DependencyRegistry::add<T>(id, dependency)` (DependencyRegistry.h:213-221
delegating to DependencyRegister::add at 112-117): locate or lazily create
the register for `T`, then fail with `DependencyDuplicated` if the id is
already present, else insert.  The pair carries the post-state (the thrown
case leaves the registry as it was: the duplicate test precedes the map
insertion, and a lazily created register is empty so its inner add cannot
throw). -/
def registryAdd (r : DependencyRegistryM) (ty id : String) (d : Nat) :
    DependencyRegistryM × Option DiffError :=
  match lookupReg r.regs ty with
  | none => (⟨insertReg r.regs ty [(id, d)]⟩, none)
  | some reg =>
      if regHasId reg id then (r, some (.dependencyDuplicated ty id))
      else (⟨updateReg r.regs ty (mapInsert reg id d)⟩, none)

/-- Embedding of `DependencyRegistry::has<T>(id)` (DependencyRegistry.h:255-263). -/
def registryHas (r : DependencyRegistryM) (ty id : String) : Bool :=
  match lookupReg r.regs ty with
  | none => false
  | some reg => regHasId reg id

/-- Embedding of `DependencyRegistry::get<T>()` — all dependencies of one type
(DependencyRegistry.h:271-279). -/
def registryGetAll (r : DependencyRegistryM) (ty : String) : List Nat :=
  match lookupReg r.regs ty with
  | none => []
  | some reg => reg.map Prod.snd

/-- Embedding of `DependencyRegistry::get<T>(id)` (DependencyRegistry.h:289-298 delegating
to DependencyRegister::get). -/
def registryGetById (r : DependencyRegistryM) (ty id : String) :
    Except DiffError Nat :=
  match lookupReg r.regs ty with
  | none => .error (.dependencyRegisterNotFound ty id)
  | some reg =>
      match reg.find? (fun p => p.1 == id) with
      | none => .error (.dependencyNotFound ty id)
      | some p => .ok p.2

theorem mapInsert_hasId (l : RegEntries) (id : String) (d : Nat) :
    regHasId (mapInsert l id d) id = true := by
  induction l with
  | nil => simp [mapInsert, regHasId]
  | cons hd tl ih =>
      rcases hd with ⟨k, x⟩
      by_cases h : strLt id k = true
      · simp [mapInsert, regHasId, h]
      · have h2 : strLt id k = false := by rwa [Bool.not_eq_true] at h
        simp only [mapInsert, h2, Bool.false_eq_true, if_false, regHasId,
          List.any_cons, Bool.or_eq_true]
        exact Or.inr (by simpa [regHasId] using ih)

theorem lookupReg_insertReg_self (l : RegList) (ty : String) (r : RegEntries) :
    lookupReg l ty = none → lookupReg (insertReg l ty r) ty = some r := by
  induction l with
  | nil => intro _; simp [insertReg, lookupReg]
  | cons hd tl ih =>
      rcases hd with ⟨t, r0⟩
      intro h
      simp only [lookupReg] at h
      by_cases ht : t = ty
      · simp [ht] at h
      · simp only [ht, if_false] at h
        by_cases hlt : strLt ty t = true
        · simp [insertReg, hlt, lookupReg]
        · simp [insertReg, hlt, lookupReg, ht, ih h]

theorem lookupReg_insertReg_ne (l : RegList) (ty ty2 : String) (r : RegEntries)
    (h : ty2 ≠ ty) : lookupReg (insertReg l ty r) ty2 = lookupReg l ty2 := by
  induction l with
  | nil => simp [insertReg, lookupReg, Ne.symm h]
  | cons hd tl ih =>
      rcases hd with ⟨t, r0⟩
      by_cases hlt : strLt ty t = true
      · simp [insertReg, hlt, lookupReg, Ne.symm h]
      · simp [insertReg, hlt, lookupReg, ih]

theorem lookupReg_updateReg_self (l : RegList) (ty : String) (r r0 : RegEntries)
    (h : lookupReg l ty = some r0) :
    lookupReg (updateReg l ty r) ty = some r := by
  induction l with
  | nil => simp [lookupReg] at h
  | cons hd tl ih =>
      rcases hd with ⟨t, r1⟩
      by_cases ht : t = ty
      · simp [updateReg, ht, lookupReg]
      · simp only [lookupReg, ht, if_false] at h
        simp [updateReg, ht, lookupReg, ih h]

theorem lookupReg_updateReg_ne (l : RegList) (ty ty2 : String) (r : RegEntries)
    (h : ty2 ≠ ty) : lookupReg (updateReg l ty r) ty2 = lookupReg l ty2 := by
  induction l with
  | nil => simp [updateReg]
  | cons hd tl ih =>
      rcases hd with ⟨t, r0⟩
      by_cases ht : t = ty
      · subst ht
        simp [updateReg, lookupReg, Ne.symm h]
      · simp [updateReg, ht, lookupReg, ih]

/-- Adding under one type leaves every other type's register untouched. -/
theorem lookupReg_registryAdd_ne (r : DependencyRegistryM) (ty2 i : String)
    (d : Nat) (ty : String) (h : ty ≠ ty2) :
    lookupReg ((registryAdd r ty2 i d).1).regs ty = lookupReg r.regs ty := by
  unfold registryAdd
  cases hl : lookupReg r.regs ty2 with
  | none => exact lookupReg_insertReg_ne _ _ _ _ h
  | some reg =>
      by_cases hdup : regHasId reg i
      · simp [hdup]
      · simpa [hdup] using lookupReg_updateReg_ne _ _ _ _ h

/-- When the id is already registered under the type, `add` throws and the
registry state is returned untouched. -/
theorem registryAdd_dup_of_has (r1 : DependencyRegistryM) (ty id : String)
    (b : Nat) (h : registryHas r1 ty id = true) :
    registryAdd r1 ty id b = (r1, some (.dependencyDuplicated ty id)) := by
  unfold registryHas at h
  unfold registryAdd
  cases hl : lookupReg r1.regs ty with
  | none => rw [hl] at h; exact absurd h (by simp)
  | some reg => rw [hl] at h; simp only at h; simp [h]

/-- When the id is not registered under the type, `add` succeeds. -/
theorem registryAdd_ok_of_not_has (r1 : DependencyRegistryM) (ty id : String)
    (b : Nat) (h : registryHas r1 ty id = false) :
    (registryAdd r1 ty id b).2 = none := by
  unfold registryHas at h
  unfold registryAdd
  cases hl : lookupReg r1.regs ty with
  | none => simp
  | some reg => rw [hl] at h; simp only at h; simp [h]

/-- After any `add<T>(id, a)` the pair `(T, id)` is present. -/
theorem registryHas_after_add (r : DependencyRegistryM) (ty id : String) (a : Nat) :
    registryHas (registryAdd r ty id a).1 ty id = true := by
  unfold registryAdd
  cases hl : lookupReg r.regs ty with
  | none =>
      unfold registryHas
      simp only
      rw [lookupReg_insertReg_self r.regs ty [(id, a)] hl]
      simp [regHasId]
  | some reg =>
      cases hd : regHasId reg id with
      | true =>
          unfold registryHas
          simp only [hd, if_true]
          rw [hl]
          exact hd
      | false =>
          unfold registryHas
          simp only [hd, Bool.false_eq_true, if_false]
          rw [lookupReg_updateReg_self r.regs ty (mapInsert reg id a) reg hl]
          exact mapInsert_hasId reg id a

/-- C4: per-interface-type id uniqueness in the registry.  After a successful
`add<I>(x, a)`, repeating `add<I>(x, b)` throws `DependencyDuplicated(I, x)`
and leaves the registry unchanged, while `add<J>(x, b)` for another
interface type `J` not yet holding `x` succeeds. -/
theorem registry_add_duplicate (r : DependencyRegistryM) (ty ty2 id : String)
    (a b : Nat) (h1 : (registryAdd r ty id a).2 = none)
    (hne : ty2 ≠ ty) (h2 : registryHas r ty2 id = false) :
    (registryAdd (registryAdd r ty id a).1 ty id b).2 =
      some (.dependencyDuplicated ty id) ∧
    (registryAdd (registryAdd r ty id a).1 ty id b).1 =
      (registryAdd r ty id a).1 ∧
    (registryAdd (registryAdd r ty id a).1 ty2 id b).2 = none := by
  have hhas : registryHas (registryAdd r ty id a).1 ty id = true :=
    registryHas_after_add r ty id a
  have hdup := registryAdd_dup_of_has (registryAdd r ty id a).1 ty id b hhas
  have hother : registryHas (registryAdd r ty id a).1 ty2 id = false := by
    unfold registryHas at h2 ⊢
    rw [lookupReg_registryAdd_ne r ty id a ty2 hne]
    exact h2
  exact ⟨by rw [hdup], by rw [hdup],
    registryAdd_ok_of_not_has (registryAdd r ty id a).1 ty2 id b hother⟩

/-- Witness for C4: `add<I>("x", 0)` on the empty registry, then the
duplicate and the cross-type add. -/
theorem registry_add_duplicate_witness :
    (registryAdd (registryAdd ⟨[]⟩ "I" "x" 0).1 "I" "x" 1).2 =
      some (.dependencyDuplicated "I" "x") ∧
    (registryAdd (registryAdd ⟨[]⟩ "I" "x" 0).1 "I" "x" 1).1 =
      (registryAdd ⟨[]⟩ "I" "x" 0).1 ∧
    (registryAdd (registryAdd ⟨[]⟩ "I" "x" 0).1 "J" "x" 1).2 = none := by
  have h := registry_add_duplicate ⟨[]⟩ "I" "J" "x" 0 1
    (by decide) (by decide) (by decide)
  exact ⟨h.1, h.2.1, h.2.2⟩

/-! Reachability form of "never added": fold a list of add operations over
the empty registry. -/

/-- Replay a sequence of `(type, id, reference)` add operations on the empty
registry (failed adds leave the state unchanged, as in the C++ code). -/
def buildRegistry (ops : List (String × String × Nat)) : DependencyRegistryM :=
  ops.foldl (fun r op => (registryAdd r op.1 op.2.1 op.2.2).1) ⟨[]⟩

theorem lookupReg_buildRegistry_none (ty : String) :
    ∀ (ops : List (String × String × Nat)) (r : DependencyRegistryM),
      (∀ op ∈ ops, op.1 ≠ ty) → lookupReg r.regs ty = none →
      lookupReg (ops.foldl (fun r op => (registryAdd r op.1 op.2.1 op.2.2).1) r).regs ty = none := by
  intro ops
  induction ops with
  | nil => intro r _ h0; simpa using h0
  | cons op rest ih =>
      intro r h h0
      simp only [List.foldl_cons]
      refine ih _ (fun o ho => h o (List.mem_cons_of_mem _ ho)) ?_
      rw [lookupReg_registryAdd_ne r op.1 op.2.1 op.2.2 ty
        (fun hh => h op (List.mem_cons_self _ _) hh.symm)]
      exact h0

/-- C9: for an interface type `T` never added to the registry, `has<T>(id)`
is `false` and `get<T>()` is empty — neither throws — while `get<T>(id)`
throws `DependencyRegisterNotFound(T, id)`. -/
theorem registry_missing_type_queries (ops : List (String × String × Nat))
    (ty id : String) (h : ∀ op ∈ ops, op.1 ≠ ty) :
    registryHas (buildRegistry ops) ty id = false ∧
    registryGetAll (buildRegistry ops) ty = [] ∧
    registryGetById (buildRegistry ops) ty id =
      .error (.dependencyRegisterNotFound ty id) := by
  have hl : lookupReg (buildRegistry ops).regs ty = none :=
    lookupReg_buildRegistry_none ty ops ⟨[]⟩ h (by simp [lookupReg])
  refine ⟨?_, ?_, ?_⟩ <;> simp [registryHas, registryGetAll, registryGetById, hl]

/-- Witness for C9: a registry holding only `("J", "x")`, queried at type
`"I"`. -/
theorem registry_missing_type_queries_witness :
    registryHas (buildRegistry [("J", "x", 0)]) "I" "x" = false ∧
    registryGetAll (buildRegistry [("J", "x", 0)]) "I" = [] ∧
    registryGetById (buildRegistry [("J", "x", 0)]) "I" "x" =
      .error (.dependencyRegisterNotFound "I" "x") :=
  registry_missing_type_queries [("J", "x", 0)] "I" "x" (by decide)

/-! Section: Topology and its builder (Topology.h / TopologyBuilder.h)

`Config` is a `std::set<unique_ptr<const ConfigEntry<>>>` ordered by key,
modelled as a key-sorted list of `CEntry`; a `TopologyEntry` carries type,
id, the ordered dependency ids and the config. -/

/-- A `TopologyEntry`. -/
structure TopologyEntryM where
  type : String
  id : String
  dependencyIds : List String
  config : List CEntry
deriving DecidableEq, Repr

/-- A `Topology`: ordered vector of entries. -/
abbrev TopologyM := List TopologyEntryM

/-- Embedding of `config.count(key)` through the transparent key comparator. -/
def configHasKey (cfg : List CEntry) (key : String) : Bool :=
  cfg.any fun e => e.key == key

/-- Embedding of `std::set::emplace` into the key-ordered config (callers have already
ruled the key out). -/
def configInsert (cfg : List CEntry) (e : CEntry) : List CEntry :=
  match cfg with
  | [] => [e]
  | e0 :: rest =>
      if strLt e.key e0.key then e :: e0 :: rest else e0 :: configInsert rest e

/-- Embedding of `TopologyBuilder::component(type, id)` (TopologyBuilder.h:99-107):
throw `ComponentIdDuplicated` when any existing entry carries the id,
otherwise append a fresh entry. -/
def builderComponent (topo : TopologyM) (ty id : String) :
    Except DiffError TopologyM :=
  if topo.any fun e => e.id == id then
    .error (.componentIdDuplicated ty id)
  else
    .ok (topo ++ [⟨ty, id, [], []⟩])

/-- Embedding of `TopologyEntryBuilder::config<T>(key, value)` (TopologyBuilder.h:63-73):
throw `ConfigEntryKeyDuplicated` when the key is already set for this entry,
otherwise emplace the new config entry. -/
def builderConfig (e : TopologyEntryM) (c : CEntry) :
    Except DiffError TopologyEntryM :=
  if configHasKey e.config c.key then
    .error (.configEntryKeyDuplicated c.key)
  else
    .ok { e with config := configInsert e.config c }

/-- Embedding of `TopologyEntryBuilder::dependency(id)` (TopologyBuilder.h:49-52): append
to the ordered dependency ids; no check of any kind. -/
def builderDependency (e : TopologyEntryM) (id : String) : TopologyEntryM :=
  { e with dependencyIds := e.dependencyIds ++ [id] }

/-- C6: builder duplicate validation.  `component(type, id)` throws
`ComponentIdDuplicated` exactly when some earlier entry already uses the id,
else appends the new entry; `config(key, value)` on an entry throws
`ConfigEntryKeyDuplicated` exactly when the key is already set for that
entry, else the config entry is added. -/
theorem builder_duplicate_validation (topo : TopologyM) (ty id : String)
    (e : TopologyEntryM) (c : CEntry) :
    ((∃ x ∈ topo, x.id = id) →
      builderComponent topo ty id = .error (.componentIdDuplicated ty id)) ∧
    ((∀ x ∈ topo, x.id ≠ id) →
      builderComponent topo ty id = .ok (topo ++ [⟨ty, id, [], []⟩])) ∧
    ((∃ x ∈ e.config, x.key = c.key) →
      builderConfig e c = .error (.configEntryKeyDuplicated c.key)) ∧
    ((∀ x ∈ e.config, x.key ≠ c.key) →
      builderConfig e c = .ok { e with config := configInsert e.config c }) := by
  refine ⟨fun h => ?_, fun h => ?_, fun h => ?_, fun h => ?_⟩
  · have : (topo.any fun x => x.id == id) = true := by
      rcases h with ⟨x, hx, hid⟩
      exact List.any_eq_true.mpr ⟨x, hx, by simp [hid]⟩
    simp [builderComponent, this]
  · have : (topo.any fun x => x.id == id) = false := by
      rw [List.any_eq_false]
      intro x hx
      simp [h x hx]
    simp [builderComponent, this]
  · have : configHasKey e.config c.key = true := by
      rcases h with ⟨x, hx, hk⟩
      exact List.any_eq_true.mpr ⟨x, hx, by simp [hk]⟩
    simp [builderConfig, this]
  · have : configHasKey e.config c.key = false := by
      rw [configHasKey, List.any_eq_false]
      intro x hx
      simp [h x hx]
    simp [builderConfig, this]

/-- Witness for C6: `component("B", "x")` on a topology already holding id
`"x"`, and `config` with a fresh key on an empty entry. -/
theorem builder_duplicate_validation_witness :
    builderComponent [⟨"A", "x", [], []⟩] "B" "x" =
      .error (.componentIdDuplicated "B" "x") ∧
    builderConfig ⟨"A", "x", [], []⟩ (.intg "k" cInt 1) =
      .ok ⟨"A", "x", [], [.intg "k" cInt 1]⟩ := by
  have h := builder_duplicate_validation [⟨"A", "x", [], []⟩] "B" "x"
    ⟨"A", "x", [], []⟩ (.intg "k" cInt 1)
  exact ⟨h.1 (by simp),
    h.2.2.2 (by intro x hx; simp at hx)⟩

/-! Section: Build (Build.h)

The constructor walks the topology in order, builds a component per entry
through the entry's factory, and pushes the owning handle onto
`componentStack_`; `ComponentStack::~ComponentStack` pops until empty, each
pop destroying exactly one component.  Factories and components are
abstracted: `f` maps an entry to the component instance it constructs (the
claim concerns the successfully built case). -/

/-- Lifecycle events observed on an instrumented component. -/
inductive LifeEvent (α : Type)
  | construct (c : α)
  | destroy (c : α)
deriving DecidableEq, Repr

/-- The constructor loop (Build.h:32-41): for each entry, build and push;
returns the final stack (head is the top, the most recently built
component) paired with the construction-event trace. -/
def buildLoop (f : TopologyEntryM → α) (topo : TopologyM) :
    List α × List (LifeEvent α) :=
  topo.foldl (fun acc e => (f e :: acc.1, acc.2 ++ [.construct (f e)])) ([], [])

/-- Embedding of `ComponentStack::~ComponentStack` (Build.h:93-100): pop until empty,
destroying one component per pop. -/
def destroyLoop : List α → List (LifeEvent α)
  | [] => []
  | c :: rest => .destroy c :: destroyLoop rest

theorem buildLoop_general (f : TopologyEntryM → α) (topo : TopologyM) :
    ∀ (s : List α) (evs : List (LifeEvent α)),
      topo.foldl (fun acc e => (f e :: acc.1, acc.2 ++ [.construct (f e)])) (s, evs) =
        ((topo.map f).reverse ++ s, evs ++ topo.map fun e => .construct (f e)) := by
  induction topo with
  | nil => intro s evs; simp
  | cons e rest ih =>
      intro s evs
      simp only [List.foldl_cons, List.map_cons, List.reverse_cons]
      rw [ih (f e :: s) (evs ++ [LifeEvent.construct (f e)])]
      simp

theorem destroyLoop_eq_map (l : List α) :
    destroyLoop l = l.map LifeEvent.destroy := by
  induction l with
  | nil => rfl
  | cons c rest ih => simp [destroyLoop, ih]

/-- C5: construction order equals topology order, and destruction of the
owned stack is exactly the reverse of construction order, one component per
pop. -/
theorem build_lifecycle_order (f : TopologyEntryM → α) (topo : TopologyM) :
    (buildLoop f topo).2 = (topo.map fun e => .construct (f e)) ∧
    destroyLoop (buildLoop f topo).1 =
      ((topo.map f).reverse.map LifeEvent.destroy) ∧
    (destroyLoop (buildLoop f topo).1).length = topo.length := by
  have h : buildLoop f topo =
      ((topo.map f).reverse, topo.map fun e => .construct (f e)) := by
    rw [buildLoop, buildLoop_general f topo [] []]
    simp
  refine ⟨by rw [h], ?_, ?_⟩
  · rw [h, destroyLoop_eq_map]
  · rw [h, destroyLoop_eq_map]
    simp

/-! Section: TopologyLoader (TopologyLoader.h)

nlohmann JSON values are embedded by storage kind: unsigned integers and
signed integers are distinct storages (`is_number_unsigned` holds only for
the former, `is_number_integer` for both), objects keep their fields sorted
by key (`std::map`), arrays keep order.  The external parser is out of
scope; `loadFile` takes its outcome as a parameter. -/

/-- An nlohmann JSON value, by storage kind. -/
inductive Json
  | null
  | jbool (b : Bool)
  | numU (n : Nat)
  | numI (i : Int)
  | numF
  | jstr (s : String)
  | arr (elems : List Json)
  | obj (fields : List (String × Json))

/-- Embedding of `json.get<uint64_t>()` on an integer-storage value (a signed storage is
`static_cast` to `uint64_t`, i.e. wrapped modulo `2^64`). -/
def getU64 : Json → Nat
  | .numU n => n
  | .numI i => (i % ((2 : Int) ^ 64)).toNat
  | _ => 0

/-- Conversion of a `uint64_t` bit pattern to `int64_t` (the gcc wrap-around
behaviour of `const int64_t value = json.get<uint64_t>();`). -/
def toInt64 (n : Nat) : Int :=
  if n < 2 ^ 63 then (n : Int) else (n : Int) - 2 ^ 64

/-- Embedding of `find` over an object's fields. -/
def lookupField : List (String × Json) → String → Option Json
  | [], _ => none
  | (k, v) :: rest, key => if k = key then some v else lookupField rest key

/-- Embedding of `componentJson.find(key)` (`none` on anything that has no such field). -/
def objFind (j : Json) (key : String) : Option Json :=
  match j with
  | .obj fields => lookupField fields key
  | _ => none

/-- Shorthand for building a `TopologyLoaderException`. -/
def tlErr (msg : String) : DiffError := .topologyLoaderException msg

/-- The `Component{#i, "type" : "id"}` message prefix. -/
def cPrefix (cIdx cTy cId : String) : String :=
  "Component\x7b#" ++ cIdx ++ ", \"" ++ cTy ++ "\" : \"" ++ cId ++ "\"\x7d"

/-- Embedding of `TopologyLoader::loadFile` (TopologyLoader.h:100-110): inaccessible file
and parse failure produce `TopologyLoaderException`s; `file` is `none` when
the `ifstream` cannot open, otherwise the parser's outcome. -/
def loadFile (path : String) (file : Option (Except String Json)) :
    Except DiffError Json :=
  match file with
  | none =>
      .error (tlErr ("Topology file not accessible. Path: \"" ++ path ++ "\"."))
  | some (.error msg) =>
      .error (tlErr ("Topology json syntax error. Details: \n" ++ msg))
  | some (.ok j) => .ok j

/-- Embedding of `TopologyLoader::loadType` (TopologyLoader.h:112-129). -/
def loadType (cIdx : String) (cJson : Json) : Except DiffError String :=
  match objFind cJson "type" with
  | none =>
      .error (tlErr ("Component\x7b#" ++ cIdx ++ "\x7d - Component type shall be specified."))
  | some (.jstr s) =>
      if s = "" then
        .error (tlErr ("Component\x7b#" ++ cIdx ++ "\x7d - Component type shall not be empty."))
      else .ok s
  | some _ =>
      .error (tlErr ("Component\x7b#" ++ cIdx ++ "\x7d - Component type shall be a string."))

/-- Embedding of `TopologyLoader::loadId` (TopologyLoader.h:131-148). -/
def loadId (cIdx : String) (cJson : Json) : Except DiffError String :=
  match objFind cJson "id" with
  | none =>
      .error (tlErr ("Component\x7b#" ++ cIdx ++ "\x7d - Component id shall be specified."))
  | some (.jstr s) =>
      if s = "" then
        .error (tlErr ("Component\x7b#" ++ cIdx ++ "\x7d - Component id shall not be empty."))
      else .ok s
  | some _ =>
      .error (tlErr ("Component\x7b#" ++ cIdx ++ "\x7d - Component id shall be a string."))

/-- Embedding of `TopologyLoader::loadDependency` (TopologyLoader.h:168-184): a string
item is validated only for non-emptiness, then appended via
`TopologyEntryBuilder::dependency`. -/
def loadDependency (cIdx cTy cId dIdx : String) (dJson : Json)
    (e : TopologyEntryM) : Except DiffError TopologyEntryM :=
  match dJson with
  | .jstr id =>
      if id = "" then
        .error (tlErr (cPrefix cIdx cTy cId ++ " : Dependency\x7b#" ++ dIdx ++
          "\x7d - Dependency id shall not be empty."))
      else .ok (builderDependency e id)
  | _ =>
      .error (tlErr (cPrefix cIdx cTy cId ++ " : Dependency\x7b#" ++ dIdx ++
        "\x7d - Dependency type shall be a string."))

/-- Iteration of `loadDependencies` over the array items, with the running
item index. -/
def loadDependencyItems (cIdx cTy cId : String) :
    Nat → List Json → TopologyEntryM → Except DiffError TopologyEntryM
  | _, [], e => .ok e
  | dIdx, dj :: rest, e => do
      let e2 ← loadDependency cIdx cTy cId (toString dIdx) dj e
      loadDependencyItems cIdx cTy cId (dIdx + 1) rest e2

/-- Embedding of `TopologyLoader::loadDependencies` (TopologyLoader.h:150-166). -/
def loadDependencies (cIdx cTy cId : String) (cJson : Json)
    (e : TopologyEntryM) : Except DiffError TopologyEntryM :=
  match objFind cJson "dependencies" with
  | none => .ok e
  | some (.arr items) => loadDependencyItems cIdx cTy cId 0 items e
  | some _ =>
      .error (tlErr (cPrefix cIdx cTy cId ++ " - Dependencies shall be an array."))

/-- The typed tail of `loadConfigEntry` (TopologyLoader.h:283-299): the
declared-range test performed in the carrier type `U` (`uint64_t` for the
unsigned column, `int64_t` for the signed one; both reduce to mathematical
comparison), then `TopologyEntryBuilder::config<T>`. -/
def loadConfigEntryTyped (cIdx cTy cId key tyStr : String) (tyTok : CType)
    (value : Int) (e : TopologyEntryM) : Except DiffError TopologyEntryM :=
  if value < cmin tyTok ∨ cmax tyTok < value then
    .error (tlErr (cPrefix cIdx cTy cId ++ " : Config\x7b\"" ++ key ++ "\", " ++
      tyStr ++ "\x7b" ++ toString value ++
      "\x7d\x7d - Config entry value shall be in range of its declared type."))
  else
    builderConfig e (.intg key tyTok value)

/-- Embedding of `TopologyLoader::loadConfigEntry` (TopologyLoader.h:208-281): dispatch on
the JSON storage kind; the single-key object form declares one of the eight
sized types, demands matching signedness of the payload, and range-checks it.
The signed column reads the payload through `json.get<uint64_t>()` before
converting to `int64_t` (TopologyLoader.h:262). -/
def loadConfigEntry (cIdx cTy cId key : String) (j : Json)
    (e : TopologyEntryM) : Except DiffError TopologyEntryM :=
  match j with
  | .jbool b => builderConfig e (.intg key cBool (if b then 1 else 0))
  | .numU n => builderConfig e (.intg key cULong (n : Int))
  | .numI i => builderConfig e (.intg key cLong i)
  | .jstr s => builderConfig e (.str key s)
  | .obj [(tyStr, vj)] =>
      if tyStr = "uint8_t" ∨ tyStr = "uint16_t" ∨ tyStr = "uint32_t" ∨ tyStr = "uint64_t" then
        match vj with
        | .numU n =>
            let tok : CType :=
              if tyStr = "uint8_t" then cUChar
              else if tyStr = "uint16_t" then cUShort
              else if tyStr = "uint32_t" then cUInt
              else cULong
            loadConfigEntryTyped cIdx cTy cId key tyStr tok (n : Int) e
        | _ =>
            .error (tlErr (cPrefix cIdx cTy cId ++ " : Config\x7b\"" ++ key ++ "\", " ++
              tyStr ++ "\x7d - Config entry value type shall be unsigned integer."))
      else if tyStr = "int8_t" ∨ tyStr = "int16_t" ∨ tyStr = "int32_t" ∨ tyStr = "int64_t" then
        match vj with
        | .numU n =>
            let tok : CType :=
              if tyStr = "int8_t" then cSChar
              else if tyStr = "int16_t" then cShort
              else if tyStr = "int32_t" then cInt
              else cLong
            loadConfigEntryTyped cIdx cTy cId key tyStr tok (toInt64 (getU64 (.numU n))) e
        | .numI i =>
            let tok : CType :=
              if tyStr = "int8_t" then cSChar
              else if tyStr = "int16_t" then cShort
              else if tyStr = "int32_t" then cInt
              else cLong
            loadConfigEntryTyped cIdx cTy cId key tyStr tok (toInt64 (getU64 (.numI i))) e
        | _ =>
            .error (tlErr (cPrefix cIdx cTy cId ++ " : Config\x7b\"" ++ key ++ "\", " ++
              tyStr ++ "\x7d - Config entry value type shall be integer."))
      else
        .error (tlErr (cPrefix cIdx cTy cId ++ " : Config\x7b\"" ++ key ++
          "\"\x7d - Config entry object type shall be one of \x7buint8_t, int8_t, uint16_t, int16_t, uint32_t, int32_t, uint64_t, int64_t\x7d."))
  | .obj _ =>
      .error (tlErr (cPrefix cIdx cTy cId ++ " : Config\x7b\"" ++ key ++
        "\"\x7d - Config entry object shall be of size 1."))
  | _ =>
      .error (tlErr (cPrefix cIdx cTy cId ++ " : Config\x7b\"" ++ key ++
        "\"\x7d - Config entry type shall be one of \x7bbool, ungigned int, signed int, string, object\x7d."))

/-- Iteration of `loadConfig` over the config object's fields (sorted order,
as iterated by nlohmann). -/
def loadConfigFields (cIdx cTy cId : String) :
    List (String × Json) → TopologyEntryM → Except DiffError TopologyEntryM
  | [], e => .ok e
  | (key, j) :: rest, e =>
      if key = "" then
        .error (tlErr (cPrefix cIdx cTy cId ++ " - Config shall not consist of empty keys."))
      else do
        let e2 ← loadConfigEntry cIdx cTy cId key j e
        loadConfigFields cIdx cTy cId rest e2

/-- Embedding of `TopologyLoader::loadConfig` (TopologyLoader.h:186-206). -/
def loadConfig (cIdx cTy cId : String) (cJson : Json) (e : TopologyEntryM) :
    Except DiffError TopologyEntryM :=
  match objFind cJson "config" with
  | none => .ok e
  | some (.obj fields) => loadConfigFields cIdx cTy cId fields e
  | some _ =>
      .error (tlErr (cPrefix cIdx cTy cId ++ " - Config shall be an object."))

/-- One iteration of `TopologyLoader::load` (TopologyLoader.h:57-80): object
check, type and id, `TopologyBuilder::component`, then dependencies and
config filled into the appended entry.  (The C++ appends the entry before
filling it in place; on the error paths the exception escapes `load`, so
the final result is the same as appending the finished entry.) -/
def loadComponent (cIdx : String) (cj : Json) (topo : TopologyM) :
    Except DiffError TopologyM :=
  match cj with
  | .obj _ => do
      let ty ← loadType cIdx cj
      let id ← loadId cIdx cj
      if topo.any fun x => x.id == id then
        .error (.componentIdDuplicated ty id)
      else do
        let e1 ← loadDependencies cIdx ty id cj ⟨ty, id, [], []⟩
        let e2 ← loadConfig cIdx ty id cj e1
        .ok (topo ++ [e2])
  | _ =>
      .error (tlErr ("Component\x7b#" ++ cIdx ++ "\x7d - Component shall be an object."))

/-- Iteration of `load` over the topology array, with the running component
index (nlohmann `items()` keys an array by decimal index). -/
def loadComponents : Nat → List Json → TopologyM → Except DiffError TopologyM
  | _, [], topo => .ok topo
  | idx, cj :: rest, topo => do
      let topo2 ← loadComponent (toString idx) cj topo
      loadComponents (idx + 1) rest topo2

/-- Embedding of `TopologyLoader::load` (TopologyLoader.h:57-80).  The builder's
construction clears the target topology, so loading always starts from the
empty one. -/
def load (j : Json) : Except DiffError TopologyM :=
  match j with
  | .arr items => loadComponents 0 items []
  | _ => .error (tlErr "Topology json shall be an array.")

instance {ε α : Type} [DecidableEq ε] [DecidableEq α] : DecidableEq (Except ε α) :=
  fun a b =>
    match a, b with
    | .ok x, .ok y =>
        if h : x = y then .isTrue (by rw [h]) else .isFalse (by simp [h])
    | .error x, .error y =>
        if h : x = y then .isTrue (by rw [h]) else .isFalse (by simp [h])
    | .ok _, .error _ => .isFalse (by simp)
    | .error _, .ok _ => .isFalse (by simp)

/-- The golden four-component document of the spec (§8.6) as stored by the
parser (object fields key-sorted). -/
def goldenJson : Json :=
  .arr
    [.obj [("id", .jstr "id0"), ("type", .jstr "type0")],
     .obj [("id", .jstr "id1"), ("type", .jstr "type1")],
     .obj [("dependencies", .arr [.jstr "id0"]),
           ("id", .jstr "id2"), ("type", .jstr "type1")],
     .obj [("config", .obj
              [("key0", .numU 1),
               ("key1", .obj [("uint8_t", .numU 255)]),
               ("key2", .jstr "stringValue"),
               ("key3", .numI (-1))]),
           ("dependencies", .arr [.jstr "id0", .jstr "id2"]),
           ("id", .jstr "id3"), ("type", .jstr "type2")]]

/-- The topology the golden document loads to. -/
def goldenTopology : TopologyM :=
  [⟨"type0", "id0", [], []⟩,
   ⟨"type1", "id1", [], []⟩,
   ⟨"type1", "id2", ["id0"], []⟩,
   ⟨"type2", "id3", ["id0", "id2"],
     [.intg "key0" cULong 1, .intg "key1" cUChar 255,
      .str "key2" "stringValue", .intg "key3" cLong (-1)]⟩]

/-- C7: the golden document loads successfully to a four-entry topology
whose fourth entry carries `dependencyIds = ["id0", "id2"]` and exactly the
config entries `(key0, uint64, 1)`, `(key1, uint8, 255)`,
`(key2, string, "stringValue")`, `(key3, int64, -1)`. -/
theorem loader_golden_document :
    load goldenJson = .ok goldenTopology ∧
    goldenTopology.length = 4 ∧
    goldenTopology[3]?.map (fun e => e.dependencyIds) = some ["id0", "id2"] ∧
    goldenTopology[3]?.map (fun e => e.config) =
      some [.intg "key0" cULong 1, .intg "key1" cUChar 255,
            .str "key2" "stringValue", .intg "key3" cLong (-1)] := by
  refine ⟨by decide, by decide, by decide, by decide⟩

/-- C8 counterexample: the parse-failure message of `loadFile` contains a
space between `Details:` and the newline, so at parser message `"x"` it is
not the claimed space-free string. -/
theorem loader_syntax_error_message_counterexample :
    loadFile "p" (some (.error "x")) =
      .error (tlErr "Topology json syntax error. Details: \nx") ∧
    "Topology json syntax error. Details: \nx" ≠
      "Topology json syntax error. Details:\nx" := by
  exact ⟨rfl, by decide⟩

/-- C8 amended: for every failed parse, the loader throws a
`TopologyLoaderException` whose message is `Topology json syntax error.
Details: ` (colon, space) followed by a newline and then the parser message
verbatim. -/
theorem loader_syntax_error_message (path msg : String) :
    loadFile path (some (.error msg)) =
      .error (tlErr ("Topology json syntax error. Details: \n" ++ msg)) := rfl

/-- C10: `TopologyEntryBuilder::dependency(id)` appends the id to the
entry's ordered dependency list, leaves everything else intact and never
fails, with no emptiness or uniqueness validation; the non-emptiness check
for dependency ids lives only in the JSON loader, which rejects the empty
string. -/
theorem builder_dependency_appends (e : TopologyEntryM)
    (id cIdx cTy cId dIdx : String) :
    (builderDependency e id).dependencyIds = e.dependencyIds ++ [id] ∧
    (builderDependency e id).type = e.type ∧
    (builderDependency e id).id = e.id ∧
    (builderDependency e id).config = e.config ∧
    (id ≠ "" → loadDependency cIdx cTy cId dIdx (.jstr id) e =
      .ok (builderDependency e id)) ∧
    loadDependency cIdx cTy cId dIdx (.jstr "") e =
      .error (tlErr (cPrefix cIdx cTy cId ++ " : Dependency\x7b#" ++ dIdx ++
        "\x7d - Dependency id shall not be empty.")) := by
  refine ⟨rfl, rfl, rfl, rfl, fun h => ?_, by simp [loadDependency]⟩
  simp [loadDependency, h]

/-- Witness for C10: appending the empty id (and a duplicate of it) through
the builder succeeds, while the loader rejects the empty id. -/
theorem builder_dependency_appends_witness :
    (builderDependency (builderDependency ⟨"T", "x", [], []⟩ "") "").dependencyIds =
      ["", ""] ∧
    loadDependency "0" "T" "x" "0" (.jstr "d") ⟨"T", "x", [], []⟩ =
      .ok (builderDependency ⟨"T", "x", [], []⟩ "d") ∧
    loadDependency "0" "T" "x" "1" (.jstr "") ⟨"T", "x", [], []⟩ =
      .error (tlErr (cPrefix "0" "T" "x" ++ " : Dependency\x7b#1" ++
        "\x7d - Dependency id shall not be empty.")) := by
  have h1 := builder_dependency_appends (builderDependency ⟨"T", "x", [], []⟩ "")
    "" "0" "T" "x" "0"
  have h2 := builder_dependency_appends (⟨"T", "x", [], []⟩ : TopologyEntryM)
    "d" "0" "T" "x" "0"
  have h3 := builder_dependency_appends (⟨"T", "x", [], []⟩ : TopologyEntryM)
    "" "0" "T" "x" "1"
  exact ⟨h1.1, h2.2.2.2.2.1 (by decide), h3.2.2.2.2.2⟩

end Diff
